import Mathlib

/-!
Shallow embedding of `SafeSpeak_AI.py` (a Streamlit content-moderation app)
and proofs about its risk-assessment request/response behaviour.

Modelling conventions:
* Decoded JSON / Python values are `JValue`; Python `None` is `JValue.jnull`.
* JSON numbers are kept as exact decimals `mant / 10 ^ dec` (an `Int`
  mantissa and a `Nat` count of decimal places), so all arithmetic stays on
  integers and evaluates in the kernel.  The Python `int`/`float` distinction
  is collapsed into this one representation.
* The external Gemini client is an abstract function from the request the
  code builds to an outcome: either the raw response text or a raised
  exception.  Each `call_gemini_for_*` function returns the Python result
  (`Except` models raised exceptions) together with the number of
  `generate_content` invocations it performed.
* `json.loads` is modelled by `json_loads`, a fuel-based parser for the
  JSON grammar (`NaN`/`Infinity` extensions are not modelled).
-/

namespace SafeSpeak

/-- A decoded JSON value / the Python value produced by `json.loads`.
`jnull` doubles as Python `None`. -/
inductive JValue where
  | jnull
  | jbool (b : Bool)
  | jnum (mant : Int) (dec : Nat)
  | jstr (s : String)
  | jarr (items : List JValue)
  | jobj (fields : List (String × JValue))

/-- Python truthiness of a decoded JSON value (`bool(v)`). -/
def pyTruthy : JValue → Bool
  | .jnull => false
  | .jbool b => b
  | .jnum m _ => m != 0
  | .jstr s => s ≠ ""
  | .jarr items => !items.isEmpty
  | .jobj fields => !fields.isEmpty

/-- Dictionary lookup (`d[k]` as an option); the parser keeps keys unique. -/
def jFind : List (String × JValue) → String → Option JValue
  | [], _ => none
  | (k, v) :: rest, key => if k = key then some v else jFind rest key

/-- Python `d.get(key, default)`. -/
def jGet (fields : List (String × JValue)) (key : String) (dflt : JValue) : JValue :=
  match jFind fields key with
  | some v => v
  | none => dflt

/-- Path lookup through nested objects (used to state schema properties). -/
def jPath : JValue → List String → Option JValue
  | v, [] => some v
  | .jobj fields, k :: ks =>
      match jFind fields k with
      | some v => jPath v ks
      | none => none
  | _, _ :: _ => none

/-- Characters stripped by Python `str.strip()` (ASCII whitespace). -/
def pyIsSpace (c : Char) : Bool :=
  c = ' ' || c = '\t' || c = '\n' || c = '\r' || c = '\x0b' || c = '\x0c'

/-- Python `str.strip()`. -/
def pyStrip (s : String) : String :=
  String.mk (((s.toList.dropWhile pyIsSpace).reverse.dropWhile pyIsSpace).reverse)

/-- Floor division of an exact decimal `m / 10 ^ d`. -/
def decFloor (m : Int) (d : Nat) : Int := Int.fdiv m ((10 : Int) ^ d)

/-- Python `round()` (banker's rounding, ties to even) on the exact decimal
`m / 10 ^ d`; Python returns an `int` when called with one argument. -/
def pyRound (m : Int) (d : Nat) : Int :=
  let p : Int := (10 : Int) ^ d
  let f : Int := Int.fdiv m p
  let twiceRem : Int := 2 * (m - f * p)
  if twiceRem < p then f
  else if p < twiceRem then f + 1
  else if f % 2 = 0 then f else f + 1

/-- Python `str()` of a decoded JSON value, as interpolated by the f-strings
in `render_risk_box`.  Scalars other than numbers are exact; the numeric and
container renderings are abbreviations (no theorem below inspects them). -/
def pyStr : JValue → String
  | .jnull => "None"
  | .jbool b => if b then "True" else "False"
  | .jnum m d => if d = 0 then toString m else toString m ++ "e-" ++ toString d
  | .jstr s => s
  | .jarr _ => "[...]"
  | .jobj _ => "\x7b...\x7d"

/-- Python iteration (`for x in v`): lists yield their items, strings their
characters, dicts their keys; scalars raise `TypeError` (`none`). -/
def pyIter : JValue → Option (List JValue)
  | .jarr items => some items
  | .jstr s => some (s.toList.map (fun c => .jstr c.toString))
  | .jobj fields => some (fields.map (fun kv => .jstr kv.1))
  | _ => none

/-! ## A model of `json.loads` -/

/-- JSON inter-token whitespace. -/
def jsonWs (c : Char) : Bool := c = ' ' || c = '\t' || c = '\n' || c = '\r'

/-- Drop leading JSON whitespace. -/
def dropWs (cs : List Char) : List Char := cs.dropWhile jsonWs

/-- A decimal digit, by code point. -/
def isDigitChar (c : Char) : Bool := 48 ≤ c.toNat && c.toNat ≤ 57

/-- Split off a maximal run of decimal digits. -/
def splitDigits (cs : List Char) : List Char × List Char :=
  (cs.takeWhile isDigitChar, cs.dropWhile isDigitChar)

/-- Numeric value of a digit run. -/
def digitsVal (ds : List Char) : Nat :=
  ds.foldl (fun acc c => 10 * acc + (c.toNat - 48)) 0

/-- Value of one hexadecimal digit, by code-point arithmetic. -/
def hexDigitVal (c : Char) : Option Nat :=
  let n := c.toNat
  if 48 ≤ n ∧ n ≤ 57 then some (n - 48)
  else if 97 ≤ n ∧ n ≤ 102 then some (n - 87)
  else if 65 ≤ n ∧ n ≤ 70 then some (n - 55)
  else none

/-- Single-character JSON string escapes. -/
def escapedChar (c : Char) : Option Char :=
  if c = '"' then some '"'
  else if c = '\\' then some '\\'
  else if c = '/' then some '/'
  else if c = 'b' then some '\x08'
  else if c = 'f' then some '\x0c'
  else if c = 'n' then some '\n'
  else if c = 'r' then some '\r'
  else if c = 't' then some '\t'
  else none

/-- Body of a JSON string after the opening quote; returns the decoded text
and the input after the closing quote.  Raw control characters are rejected
(CPython `json.loads` is strict). -/
def scanStrBody (fuel : Nat) (cs : List Char) : Option (String × List Char) :=
  match fuel, cs with
  | 0, _ => none
  | _, [] => none
  | fuel + 1, c :: rest =>
    if c = '"' then some ("", rest)
    else if c = '\\' then
      match rest with
      | 'u' :: h1 :: h2 :: h3 :: h4 :: rest2 =>
        match hexDigitVal h1, hexDigitVal h2, hexDigitVal h3, hexDigitVal h4 with
        | some a, some b, some c3, some d =>
          match scanStrBody fuel rest2 with
          | some (tail, rest3) =>
              some ((Char.ofNat (((a * 16 + b) * 16 + c3) * 16 + d)).toString ++ tail, rest3)
          | none => none
        | _, _, _, _ => none
      | e :: rest2 =>
        match escapedChar e with
        | some ch =>
          match scanStrBody fuel rest2 with
          | some (tail, rest3) => some (ch.toString ++ tail, rest3)
          | none => none
        | none => none
      | [] => none
    else if c.toNat < 32 then none
    else
      match scanStrBody fuel rest with
      | some (tail, rest2) => some (c.toString ++ tail, rest2)
      | none => none

/-- The optional fraction part: a dot demands at least one digit. -/
def scanFrac : List Char → Option (List Char × List Char)
  | '.' :: more =>
      let p := splitDigits more
      if p.1 = [] then none else some p
  | other => some ([], other)

/-- Exponent digits after a resolved sign. -/
def scanExpDigits (sign : Int) (cs : List Char) : Option (Int × List Char) :=
  let p := splitDigits cs
  if p.1 = [] then none else some (sign * (digitsVal p.1 : Int), p.2)

/-- The optional exponent part. -/
def scanExp : List Char → Option (Int × List Char)
  | 'e' :: '+' :: more => scanExpDigits 1 more
  | 'E' :: '+' :: more => scanExpDigits 1 more
  | 'e' :: '-' :: more => scanExpDigits (-1) more
  | 'E' :: '-' :: more => scanExpDigits (-1) more
  | 'e' :: more => scanExpDigits 1 more
  | 'E' :: more => scanExpDigits 1 more
  | other => some (0, other)

/-- A JSON number after its optional minus sign, normalized into an exact
decimal `JValue.jnum` (no leading zeros; fraction folded into the mantissa;
a non-negative net exponent folded in as well). -/
def scanUnsignedNumber (neg : Bool) (cs : List Char) : Option (JValue × List Char) :=
  let ip := splitDigits cs
  match ip.1 with
  | [] => none
  | d0 :: ds0 =>
    if d0 = '0' ∧ ds0 ≠ [] then none
    else
      match scanFrac ip.2 with
      | none => none
      | some (fracDs, afterFrac) =>
        match scanExp afterFrac with
        | none => none
        | some (e, rest) =>
          let mag : Nat := digitsVal (ip.1 ++ fracDs)
          let m0 : Int := if neg then -(mag : Int) else (mag : Int)
          let net : Int := e - (fracDs.length : Int)
          if 0 ≤ net then some (.jnum (m0 * (10 : Int) ^ net.toNat) 0, rest)
          else some (.jnum m0 (-net).toNat, rest)

/-- A JSON number literal. -/
def scanNumber : List Char → Option (JValue × List Char)
  | '-' :: more => scanUnsignedNumber true more
  | other => scanUnsignedNumber false other

/-- Drop the binding of `key` (keys are unique in parsed objects). -/
def eraseKey (key : String) : List (String × JValue) → List (String × JValue)
  | [] => []
  | kv :: rest => if kv.1 = key then rest else kv :: eraseKey key rest

/-- Prepend a member parsed to the LEFT of `fields`.  If the key recurs to
the right, Python keeps the leftmost insertion position but the rightmost
value, so the later value moves to the front. -/
def upsert (key : String) (v : JValue) (fields : List (String × JValue)) :
    List (String × JValue) :=
  match jFind fields key with
  | some laterVal => (key, laterVal) :: eraseKey key fields
  | none => (key, v) :: fields

mutual

/-- One JSON value (fuel-based recursive descent). -/
def scanValue (fuel : Nat) (cs : List Char) : Option (JValue × List Char) :=
  match fuel with
  | 0 => none
  | fuel + 1 =>
    match dropWs cs with
    | 'n' :: 'u' :: 'l' :: 'l' :: r => some (.jnull, r)
    | 't' :: 'r' :: 'u' :: 'e' :: r => some (.jbool true, r)
    | 'f' :: 'a' :: 'l' :: 's' :: 'e' :: r => some (.jbool false, r)
    | '"' :: r =>
      match scanStrBody (fuel + 1) r with
      | some (s, r2) => some (.jstr s, r2)
      | none => none
    | '[' :: r =>
      match dropWs r with
      | ']' :: r2 => some (.jarr [], r2)
      | r2 =>
        match scanElems fuel r2 with
        | some (items, r3) => some (.jarr items, r3)
        | none => none
    | '\x7b' :: r =>
      match dropWs r with
      | '\x7d' :: r2 => some (.jobj [], r2)
      | r2 =>
        match scanFields fuel r2 with
        | some (fields, r3) => some (.jobj fields, r3)
        | none => none
    | c :: rest =>
      if c = '-' || isDigitChar c then scanNumber (c :: rest)
      else none
    | [] => none

/-- One-or-more comma-separated array elements up to the closing bracket. -/
def scanElems (fuel : Nat) (cs : List Char) : Option (List JValue × List Char) :=
  match fuel with
  | 0 => none
  | fuel + 1 =>
    match scanValue fuel cs with
    | none => none
    | some (v, r) =>
      match dropWs r with
      | ',' :: r2 =>
        match scanElems fuel r2 with
        | some (vs, r3) => some (v :: vs, r3)
        | none => none
      | ']' :: r2 => some ([v], r2)
      | _ => none

/-- One-or-more comma-separated object members up to the closing brace; a
repeated key overwrites the earlier value, as in a Python dict. -/
def scanFields (fuel : Nat) (cs : List Char) : Option (List (String × JValue) × List Char) :=
  match fuel with
  | 0 => none
  | fuel + 1 =>
    match dropWs cs with
    | '"' :: r =>
      match scanStrBody (fuel + 1) r with
      | none => none
      | some (key, r2) =>
        match dropWs r2 with
        | ':' :: r3 =>
          match scanValue fuel r3 with
          | none => none
          | some (v, r4) =>
            match dropWs r4 with
            | ',' :: r5 =>
              match scanFields fuel r5 with
              | some (fields, r6) => some (upsert key v fields, r6)
              | none => none
            | '\x7d' :: r5 => some ([(key, v)], r5)
            | _ => none
        | _ => none
    | _ => none

end

/-- Model of `json.loads`: `none` is a raised `json.JSONDecodeError`. -/
def json_loads (s : String) : Option JValue :=
  match scanValue (s.length + 1) s.toList with
  | some (v, rest) => if dropWs rest = [] then some v else none
  | none => none

/-! ## The risk-assessment core of `SafeSpeak_AI.py` -/

def MODEL_NAME : String := "gemini-2.5-flash"

/-- The `RISK_SCHEMA` dict literal, verbatim as a JSON value. -/
def RISK_SCHEMA : JValue := .jobj [
  ("type", .jstr "OBJECT"),
  ("properties", .jobj [
    ("risk_score", .jobj [
      ("type", .jstr "NUMBER"),
      ("description", .jstr "Overall risk between 0 and 100. 0 = totally safe, 100 = extremely risky.")]),
    ("risk_level", .jobj [
      ("type", .jstr "STRING"),
      ("description", .jstr "Qualitative risk bucket."),
      ("enum", .jarr [.jstr "low", .jstr "medium", .jstr "high", .jstr "critical"])]),
    ("categories", .jobj [
      ("type", .jstr "ARRAY"),
      ("items", .jobj [("type", .jstr "STRING")]),
      ("description", .jstr "List of categories such as religion, caste, hate_speech, bullying, etc.")]),
    ("explanations", .jobj [
      ("type", .jstr "ARRAY"),
      ("items", .jobj [("type", .jstr "STRING")]),
      ("description", .jstr "Short human-friendly explanations of why this text is risky or safe.")]),
    ("suggested_rewrites", .jobj [
      ("type", .jstr "ARRAY"),
      ("items", .jobj [("type", .jstr "STRING")]),
      ("description", .jstr "Alternative polite / respectful rewrites of the original text.")])]),
  ("required", .jarr [.jstr "risk_score", .jstr "risk_level", .jstr "suggested_rewrites"])]

/-- One element of the `contents` argument to `generate_content`. -/
inductive Part where
  | textPart (s : String)
  | bytesPart (data : List Nat) (mime_type : String)

/-- `types.Part.from_bytes(data=..., mime_type=...)`. -/
def Part.from_bytes (data : List Nat) (mime_type : String) : Part :=
  .bytesPart data mime_type

/-- The `config=` dict passed to `generate_content`. -/
structure GenerateConfig where
  response_mime_type : String
  response_schema : JValue

/-- Everything one `client.models.generate_content` call receives. -/
structure OracleRequest where
  model : String
  contents : List Part
  config : GenerateConfig

/-- Outcome of one `generate_content` call: the `response.text` body, or a
raised exception. -/
inductive OracleOutcome where
  | success (body : String)
  | failure (message : String)
deriving DecidableEq

/-- The external Gemini client, abstracted as a function of the request. -/
def Oracle : Type := OracleRequest → OracleOutcome

/-- Exceptions that can escape a `call_gemini_for_*` function. -/
inductive AnalysisError where
  | oracleFailure (message : String)
  | decodeError
deriving DecidableEq

/-- The f-string prompt built by `call_gemini_for_text`. -/
def text_prompt (text : String) : String :=
  "
You are an AI ethics and safety assistant for social media, especially in diverse and sensitive contexts
like India and other multicultural societies.

Your job:
- Analyse the user text for risk of:
  - disrespecting or attacking religion, caste, culture, region, language or community
  - harassment, bullying, slurs or abusive language
  - gender, sexuality or minority hate
  - incitement to violence, self-harm or serious discrimination
- Be careful to respect free expression: disagreement and criticism are allowed,
  but you should still highlight if the tone is harsh or potentially hurtful.

Definitions:
- \"risk_score\": number 0â€“100. 0 means totally safe; 100 means extremely harmful.
- \"risk_level\": one of [\"low\", \"medium\", \"high\", \"critical\"].
- \"categories\": list of short labels, e.g. [\"religion\", \"caste\", \"bullying\"].
- \"explanations\": list of short bullet-point style sentences explaining your reasoning.
- \"suggested_rewrites\": list of alternative messages that keep the user\x27s intent,
  but are more polite, respectful, and unlikely to hurt anyone\x27s sentiments.

Very important:
- DO NOT invent new slurs or extra offensive content.
- DO NOT make the message harsher or more extreme.
- Focus on de-escalation, empathy, and respectful communication.

Now analyse this text and fill the JSON fields:

USER_TEXT:
\"\"\"" ++ pyStrip text ++ "\"\"\"
"

/-- The prompt literal in `call_gemini_for_image`. -/
def image_prompt : String :=
  "
You are an AI ethics and safety assistant for social media screenshots.

Steps:
1. Carefully read and transcribe any visible text in the image, especially comments,
   captions, replies, usernames and overlaid text.
2. Consider the screenshot as a bundle of social media comments / posts.
3. Evaluate the overall risk that this image\x27s content could hurt someone\x27s
   cultural, religious, caste, gender, regional or personal sentiments, or
   contain harassment, bullying, hate speech, or incitement.

Return a single JSON object with:
- \"risk_score\": number 0â€“100 (0 = safe, 100 = extremely harmful)
- \"risk_level\": one of [\"low\", \"medium\", \"high\", \"critical\"]
- \"categories\": list of short labels (e.g. [\"religion\", \"caste\", \"bullying\", \"explicit_language\"])
- \"explanations\": list of short sentences explaining the main concerns
- \"suggested_rewrites\": list of more respectful and polite alternative ways to express
  the main messages from these comments, while keeping the core meaning where possible.

Do NOT output anything except the JSON object.
"

/-- The prompt literal in `call_gemini_for_audio`. -/
def audio_prompt : String :=
  "
You are an AI ethics and safety assistant for SPOKEN social media messages (voice notes).

Steps:
1. Accurately TRANSCRIBE the speech in the audio.
2. Analyse BOTH:
   - The CONTENT of what is said.
   - The TONE of the voice (angry, sarcastic, mocking, calm, threatening, etc.).
3. Decide how risky it would be to send this as a voice message or post it online,
   especially in sensitive contexts like religion, caste, gender, region, language,
   or towards specific communities or individuals.

Important:
- Someone can sound aggressive even if words are neutral.
- Sarcasm and mocking tone can make a message more hurtful.
- Do NOT invent new slurs or add extra offensive details that are not spoken.

Return a JSON object with:
- \"risk_score\": number 0â€“100 (0 = safe, 100 = extremely harmful)
- \"risk_level\": one of [\"low\", \"medium\", \"high\", \"critical\"]
- \"categories\": list of short labels (e.g. [\"religion\", \"caste\", \"bullying\", \"threat\"])
- \"explanations\": list of short sentences explaining the risk, including tone-related points
- \"suggested_rewrites\": list of respectful, polite alternative ways to say the same thing
  as a text message. Keep the user\x27s main intent, but make it calm and non-hurtful.

Output ONLY the JSON object, no extra text.
"

/-- The `generate_content` request built by `call_gemini_for_text`. -/
def text_request (text : String) : OracleRequest where
  model := MODEL_NAME
  contents := [.textPart (text_prompt text)]
  config := { response_mime_type := "application/json", response_schema := RISK_SCHEMA }

/-- The request built by `call_gemini_for_image`; `mime_type or "image/png"`
falls back on the default exactly when the given string is falsy (empty). -/
def image_request (image_bytes : List Nat) (mime_type : String) : OracleRequest where
  model := MODEL_NAME
  contents := [Part.from_bytes image_bytes (if mime_type = "" then "image/png" else mime_type),
               .textPart image_prompt]
  config := { response_mime_type := "application/json", response_schema := RISK_SCHEMA }

/-- The request built by `call_gemini_for_audio`. -/
def audio_request (audio_bytes : List Nat) (mime_type : String) : OracleRequest where
  model := MODEL_NAME
  contents := [Part.from_bytes audio_bytes (if mime_type = "" then "audio/wav" else mime_type),
               .textPart audio_prompt]
  config := { response_mime_type := "application/json", response_schema := RISK_SCHEMA }

/-- Shared tail of all three callers:
`response = client.models.generate_content(...); return json.loads(response.text)`,
with raised exceptions (from the client, or from `json.loads`) as `.error`. -/
def generate_then_loads (oracle : Oracle) (req : OracleRequest) :
    Except AnalysisError JValue :=
  match oracle req with
  | .failure m => .error (.oracleFailure m)
  | .success body =>
    match json_loads body with
    | none => .error .decodeError
    | some v => .ok v

/-- `call_gemini_for_text`.  The second component counts how many
`generate_content` calls were issued. -/
def call_gemini_for_text (text : String) (oracle : Oracle) :
    Except AnalysisError JValue × Nat :=
  if text = "" ∨ pyStrip text = "" then (.ok .jnull, 0)
  else (generate_then_loads oracle (text_request text), 1)

/-- `call_gemini_for_image`. -/
def call_gemini_for_image (image_bytes : List Nat) (mime_type : String) (oracle : Oracle) :
    Except AnalysisError JValue × Nat :=
  if image_bytes = [] then (.ok .jnull, 0)
  else (generate_then_loads oracle (image_request image_bytes mime_type), 1)

/-- `call_gemini_for_audio`. -/
def call_gemini_for_audio (audio_bytes : List Nat) (mime_type : String) (oracle : Oracle) :
    Except AnalysisError JValue × Nat :=
  if audio_bytes = [] then (.ok .jnull, 0)
  else (generate_then_loads oracle (audio_request audio_bytes mime_type), 1)

/-! ## `render_risk_box` -/

/-- The `level_display` dict lookup with default `risk_level` (the keys map
to the four byte sequences present in the source file). -/
def level_display_map (risk_level : String) : String :=
  if risk_level = "low" then "\u00F0\u0178\u0178\u00A2 Low"
  else if risk_level = "medium" then "\u00F0\u0178\u0178\u00A1 Medium"
  else if risk_level = "high" then "\u00F0\u0178\u0178\u00A0 High"
  else if risk_level = "critical" then "\u00F0\u0178\u201D\u00B4 Critical"
  else risk_level

/-- `int(round(x))` on a decoded JSON value: numbers round half-to-even,
bools count as 0/1, anything else raises `TypeError` (`none`). -/
def pyRoundJ : JValue → Option Int
  | .jnum m d => some (pyRound m d)
  | .jbool b => some (if b then 1 else 0)
  | _ => none

/-- `.lower()` needs a string receiver; anything else raises. -/
def strOf : JValue → Option String
  | .jstr s => some s
  | _ => none

/-- Python `x.lower()` (ASCII case fold). -/
def pyLower (s : String) : String := String.mk (s.toList.map Char.toLower)

/-- `data.get(key) or []`. -/
def orEmptyList (v : JValue) : JValue := if pyTruthy v then v else .jarr []

/-- Items a `for`/`join` over `v` would visit, given that the loop is guarded
by `if v:` — a falsy value is never iterated. -/
def shownItems (v : JValue) : Option (List JValue) :=
  if pyTruthy v then pyIter v else some []

/-- Everything `render_risk_box` writes to the page, as one record. -/
structure RenderBox where
  risk_score : Int
  progress : Int
  risk_level : String
  level_display : String
  categories : JValue
  categories_shown : Option String
  explanations : JValue
  explanation_lines : List String
  suggested_rewrites : JValue
  rewrite_lines : List String

/-- Result of a `render_risk_box` call that did not raise. -/
inductive Rendered where
  | warning
  | box (b : RenderBox)

/-- `render_risk_box(data)`: `some .warning` is the falsy-input early return,
`some (.box _)` collects the displayed values, and `none` is a raised
exception (the source writes the score and level before the three list
sections, so on a mid-way exception a prefix is already on the page; this
model only reports fully-successful renders). -/
def render_body (fields : List (String × JValue)) : Option Rendered := do
  let risk_score ← pyRoundJ (jGet fields "risk_score" (.jnum 0 0))
  let levelVal := (fun l => if pyTruthy l then l else .jstr "low")
    (jGet fields "risk_level" .jnull)
  let levelStr ← strOf levelVal
  let risk_level := pyLower levelStr
  let categories := orEmptyList (jGet fields "categories" .jnull)
  let catItems ← shownItems categories
  let explanations := orEmptyList (jGet fields "explanations" .jnull)
  let expItems ← shownItems explanations
  let rewrites := orEmptyList (jGet fields "suggested_rewrites" .jnull)
  let rwItems ← shownItems rewrites
  some (.box {
    risk_score := risk_score
    progress := min (max risk_score 0) 100
    risk_level := risk_level
    level_display := level_display_map risk_level
    categories := categories
    categories_shown :=
      if pyTruthy categories then
        some (String.intercalate ", " (catItems.map pyStr))
      else none
    explanations := explanations
    explanation_lines := expItems.map (fun e => "- " ++ pyStr e)
    suggested_rewrites := rewrites
    rewrite_lines := rwItems.mapIdx
      (fun i alt => "*Option " ++ toString (i + 1) ++ ":* " ++ pyStr alt) })

/-- `render_risk_box(data)` proper: the falsy early return, then the dict
branch (`render_body`); a truthy non-dict raises at `data.get`. -/
def render_risk_box (data : JValue) : Option Rendered :=
  if pyTruthy data = false then some .warning
  else
    match data with
    | .jobj fields => render_body fields
    | _ => none

/-! ## The audio tab's session-state cache -/

/-- The two session-state slots the audio tab uses; `none` in
`last_audio_result` means the key is absent. -/
structure SessionState where
  last_audio_size : Option Nat
  last_audio_result : Option JValue

/-- Observable effects of handling one recording in the audio tab. -/
structure AudioTurn where
  oracle_calls : Nat
  error_shown : Bool
  rendered : Option JValue

/-- The data handed to `render_risk_box` at the end of the audio tab, if the
`last_audio_result` key exists and is truthy. -/
def renderedOf (s : SessionState) : Option JValue :=
  match s.last_audio_result with
  | some r => if pyTruthy r then some r else none
  | none => none

/-- Session state on first entering the audio tab (`last_audio_size` is
initialized to `None`). -/
def initial_session : SessionState :=
  { last_audio_size := none, last_audio_result := none }

/-- One pass through the `if audio_value:` body of the audio tab: compare
`len(audio_value.getvalue())` with the cached size, analyse on mismatch
(leaving the cache untouched if the analysis raises), then render whatever
result the session now holds. -/
def tab_audio_step (oracle : Oracle) (audio : List Nat) (mime_type : String)
    (s : SessionState) : SessionState × AudioTurn :=
  let current_size := audio.length
  if s.last_audio_size ≠ some current_size then
    match call_gemini_for_audio audio mime_type oracle with
    | (.ok result, n) =>
      let s2 : SessionState :=
        { last_audio_size := some current_size, last_audio_result := some result }
      (s2, { oracle_calls := n, error_shown := false, rendered := renderedOf s2 })
    | (.error _, n) =>
      (s, { oracle_calls := n, error_shown := true, rendered := renderedOf s })
  else
    (s, { oracle_calls := 0, error_shown := false, rendered := renderedOf s })


/-! ## Concrete fixtures used by counterexamples and witnesses -/

/-- Well-formed JSON reply whose score is out of range. -/
def body150 : String :=
  "\x7b\"risk_score\": 150, \"risk_level\": \"high\", \"suggested_rewrites\": []\x7d"

/-- Oracle that always replies with `body150`. -/
def oracle150 : Oracle := fun _ => .success body150

/-- Fields of the decoded `body150`. -/
def fields150 : List (String × JValue) :=
  [("risk_score", .jnum 150 0), ("risk_level", .jstr "high"),
   ("suggested_rewrites", .jarr [])]

/-- Decoded `body150`. -/
def value150 : JValue := .jobj fields150

/-- Reply from spec test 3: score 87.6, categories/explanations omitted. -/
def body876 : String :=
  "\x7b\"risk_score\": 87.6, \"risk_level\": \"high\", \"suggested_rewrites\": []\x7d"

/-- Oracle that always replies with `body876`. -/
def oracle876 : Oracle := fun _ => .success body876

/-- Decoded `body876`. -/
def value876 : JValue :=
  .jobj [("risk_score", .jnum 876 1), ("risk_level", .jstr "high"),
         ("suggested_rewrites", .jarr [])]

/-- A benign, schema-conformant reply. -/
def bodyLow : String :=
  "\x7b\"risk_score\": 10, \"risk_level\": \"low\", \"suggested_rewrites\": []\x7d"

/-- Oracle that always replies with `bodyLow`. -/
def oracleLow : Oracle := fun _ => .success bodyLow

/-- Decoded `bodyLow`. -/
def valueLow : JValue :=
  .jobj [("risk_score", .jnum 10 0), ("risk_level", .jstr "low"),
         ("suggested_rewrites", .jarr [])]

/-- Oracle whose reply text is the JSON literal `null`. -/
def oracleNull : Oracle := fun _ => .success "null"

/-- Oracle whose reply text is not decodable as JSON. -/
def oracleBad : Oracle := fun _ => .success "not json"

/-! ## Shared facts about the oracle-then-decode tail -/

/-- A successful result is exactly a decoded oracle reply. -/
theorem generate_then_loads_ok_iff (oracle : Oracle) (req : OracleRequest) (v : JValue) :
    generate_then_loads oracle req = .ok v ↔
      ∃ body, oracle req = .success body ∧ json_loads body = some v := by
  unfold generate_then_loads
  cases ho : oracle req with
  | failure m => simp
  | success body =>
    cases hj : json_loads body with
    | none => simp [hj]
    | some w => simp [hj, eq_comm]

/-- The oracle replied with well-formed JSON that decodes to `null`. -/
def oracleRepliedNull (oracle : Oracle) (req : OracleRequest) : Prop :=
  ∃ body, oracle req = .success body ∧ json_loads body = some .jnull

/-! ## C2 -/

/-- C2: for blank text and for empty image/audio bytes, each operation
returns Python `None` and performs zero oracle calls. -/
theorem C2_empty_input_short_circuits (oracle : Oracle) (text mime_type : String)
    (h : text = "" ∨ pyStrip text = "") :
    call_gemini_for_text text oracle = (.ok .jnull, 0) ∧
    call_gemini_for_image [] mime_type oracle = (.ok .jnull, 0) ∧
    call_gemini_for_audio [] mime_type oracle = (.ok .jnull, 0) := by
  refine ⟨?_, rfl, rfl⟩
  unfold call_gemini_for_text
  rw [if_pos h]

/-- Witness for `C2_empty_input_short_circuits` on the all-whitespace input
`"   "` (so the hypothesis holds via its second disjunct). -/
theorem C2_witness :
    (("   " : String) = "" ∨ pyStrip "   " = "") ∧
    (call_gemini_for_text "   " oracle150 = (.ok .jnull, 0) ∧
     call_gemini_for_image [] "" oracle150 = (.ok .jnull, 0) ∧
     call_gemini_for_audio [] "" oracle150 = (.ok .jnull, 0)) :=
  ⟨Or.inr rfl, C2_empty_input_short_circuits oracle150 "   " "" (Or.inr rfl)⟩

/-! ## C4 -/

/-- C4: on non-blank text, if the oracle's reply is not decodable as JSON
the call raises the decode error (the classified `JSONDecodeError`), and in
particular returns neither `None` nor any record. -/
theorem C4_undecodable_reply_raises (text : String) (oracle : Oracle) (body : String)
    (hne : ¬ (text = "" ∨ pyStrip text = ""))
    (ho : oracle (text_request text) = .success body)
    (hj : json_loads body = none) :
    (call_gemini_for_text text oracle).1 = .error .decodeError ∧
    ∀ v, (call_gemini_for_text text oracle).1 ≠ .ok v := by
  have he : (call_gemini_for_text text oracle).1 = .error .decodeError := by
    unfold call_gemini_for_text
    rw [if_neg hne]
    show generate_then_loads oracle (text_request text) = _
    unfold generate_then_loads
    simp only [ho, hj]
  refine ⟨he, fun v hv => ?_⟩
  rw [he] at hv
  exact Except.noConfusion hv

/-- Witness for `C4_undecodable_reply_raises` at `"hi"` and an oracle whose
reply text is `"not json"`. -/
theorem C4_witness :
    (¬ (("hi" : String) = "" ∨ pyStrip "hi" = "")) ∧
    ((call_gemini_for_text "hi" oracleBad).1 = .error .decodeError ∧
     ∀ v, (call_gemini_for_text "hi" oracleBad).1 ≠ .ok v) :=
  ⟨by decide, C4_undecodable_reply_raises "hi" oracleBad "not json" (by decide) rfl rfl⟩

/-! ## C5 -/

/-- C5: with the stubbed reply `risk_score 87.6`, `risk_level "high"`,
`suggested_rewrites []` and the optional fields omitted, the call returns
the decoded record and the render step normalizes it to a displayed score of
88 (round-half-to-even) with empty categories and explanations. -/
theorem C5_partial_record_normalized :
    (call_gemini_for_text "hello" oracle876).1 = .ok value876 ∧
    render_risk_box value876 = some (.box {
      risk_score := 88
      progress := 88
      risk_level := "high"
      level_display := "ðŸŸ  High"
      categories := .jarr []
      categories_shown := none
      explanations := .jarr []
      explanation_lines := []
      suggested_rewrites := .jarr []
      rewrite_lines := [] }) :=
  ⟨rfl, rfl⟩

/-! ## C6 -/

/-- C6: when the oracle reports `risk_score` 150, the assessment record
keeps 150 (also shown as the metric), and only the progress-bar argument is
clamped to 100. -/
theorem C6_clamp_only_at_display :
    (call_gemini_for_text "hello" oracle150).1 = .ok value150 ∧
    jFind fields150 "risk_score" = some (.jnum 150 0) ∧
    render_risk_box value150 = some (.box {
      risk_score := 150
      progress := 100
      risk_level := "high"
      level_display := "ðŸŸ  High"
      categories := .jarr []
      categories_shown := none
      explanations := .jarr []
      explanation_lines := []
      suggested_rewrites := .jarr []
      rewrite_lines := [] }) :=
  ⟨rfl, rfl, rfl⟩

/-! ## C8 -/

/-- C8: all three modalities pass `RISK_SCHEMA` as the constrained output
schema, and the schema declares `risk_score` numeric, `risk_level` as one of
the four literals, the three list fields as string arrays, and exactly
`risk_score`, `risk_level`, `suggested_rewrites` as required. -/
theorem C8_schema_constrained_everywhere (text mime_type : String) (bytes : List Nat) :
    (text_request text).config.response_schema = RISK_SCHEMA ∧
    (image_request bytes mime_type).config.response_schema = RISK_SCHEMA ∧
    (audio_request bytes mime_type).config.response_schema = RISK_SCHEMA ∧
    (text_request text).config.response_mime_type = "application/json" ∧
    (image_request bytes mime_type).config.response_mime_type = "application/json" ∧
    (audio_request bytes mime_type).config.response_mime_type = "application/json" ∧
    jPath RISK_SCHEMA ["properties", "risk_score", "type"] = some (.jstr "NUMBER") ∧
    jPath RISK_SCHEMA ["properties", "risk_level", "type"] = some (.jstr "STRING") ∧
    jPath RISK_SCHEMA ["properties", "risk_level", "enum"] =
      some (.jarr [.jstr "low", .jstr "medium", .jstr "high", .jstr "critical"]) ∧
    jPath RISK_SCHEMA ["properties", "categories", "type"] = some (.jstr "ARRAY") ∧
    jPath RISK_SCHEMA ["properties", "categories", "items"] =
      some (.jobj [("type", .jstr "STRING")]) ∧
    jPath RISK_SCHEMA ["properties", "explanations", "type"] = some (.jstr "ARRAY") ∧
    jPath RISK_SCHEMA ["properties", "explanations", "items"] =
      some (.jobj [("type", .jstr "STRING")]) ∧
    jPath RISK_SCHEMA ["properties", "suggested_rewrites", "type"] = some (.jstr "ARRAY") ∧
    jPath RISK_SCHEMA ["properties", "suggested_rewrites", "items"] =
      some (.jobj [("type", .jstr "STRING")]) ∧
    jPath RISK_SCHEMA ["required"] =
      some (.jarr [.jstr "risk_score", .jstr "risk_level", .jstr "suggested_rewrites"]) :=
  ⟨rfl, rfl, rfl, rfl, rfl, rfl, rfl, rfl, rfl, rfl, rfl, rfl, rfl, rfl, rfl, rfl⟩

/-! ## C1 -/

/-- The record shape claim C1 promises (its own wording, for comparison
with what the code returns): an object whose `risk_score` is a number in
[0, 100] and whose `risk_level` is one of the four enum literals. -/
def specWellTypedRecord : JValue → Bool
  | .jobj fields =>
    (match jFind fields "risk_score" with
     | some (.jnum m d) => decide (0 ≤ m) && decide (m ≤ 100 * (10 : Int) ^ d)
     | _ => false)
    &&
    (match jFind fields "risk_level" with
     | some (.jstr l) => l == "low" || l == "medium" || l == "high" || l == "critical"
     | _ => false)
  | _ => false

/-- Claim C1 as stated is false of the code: on the non-empty input
`"hello"`, an oracle reply that is well-formed JSON (and conforms to the
declared schema) with `risk_score` 150 makes `call_gemini_for_text` return
the out-of-range record instead of raising. -/
theorem C1_counterexample :
    ¬ (∀ (text : String) (oracle : Oracle) (v : JValue),
        ¬ (text = "" ∨ pyStrip text = "") →
        (call_gemini_for_text text oracle).1 = .ok v →
        specWellTypedRecord v = true) := by
  intro h
  have h150 := h "hello" oracle150 value150 (by decide) rfl
  exact absurd h150 (by decide)

/-- C1 amended: for non-blank text the call either raises a classified
error (client failure, or undecodable reply) or returns exactly the decoded
oracle JSON, with no local validation of range or enum. -/
theorem C1_amended_passthrough_or_classified_error (text : String) (oracle : Oracle)
    (h : ¬ (text = "" ∨ pyStrip text = "")) :
    (∃ m, oracle (text_request text) = .failure m ∧
        (call_gemini_for_text text oracle).1 = .error (.oracleFailure m)) ∨
    (∃ body, oracle (text_request text) = .success body ∧ json_loads body = none ∧
        (call_gemini_for_text text oracle).1 = .error .decodeError) ∨
    (∃ body v, oracle (text_request text) = .success body ∧ json_loads body = some v ∧
        (call_gemini_for_text text oracle).1 = .ok v) := by
  unfold call_gemini_for_text
  rw [if_neg h]
  unfold generate_then_loads
  cases ho : oracle (text_request text) with
  | failure m => exact .inl ⟨m, rfl, rfl⟩
  | success body =>
    cases hj : json_loads body with
    | none => exact .inr (.inl ⟨body, rfl, hj, by simp [hj]⟩)
    | some v => exact .inr (.inr ⟨body, v, rfl, hj, by simp [hj]⟩)

/-- Witness for `C1_amended_passthrough_or_classified_error` at `"hello"`
and the 150-score oracle. -/
theorem C1_amended_witness :
    (¬ (("hello" : String) = "" ∨ pyStrip "hello" = "")) ∧
    ((∃ m, oracle150 (text_request "hello") = .failure m ∧
        (call_gemini_for_text "hello" oracle150).1 = .error (.oracleFailure m)) ∨
     (∃ body, oracle150 (text_request "hello") = .success body ∧ json_loads body = none ∧
        (call_gemini_for_text "hello" oracle150).1 = .error .decodeError) ∨
     (∃ body v, oracle150 (text_request "hello") = .success body ∧ json_loads body = some v ∧
        (call_gemini_for_text "hello" oracle150).1 = .ok v)) :=
  ⟨by decide, C1_amended_passthrough_or_classified_error "hello" oracle150 (by decide)⟩

/-! ## C3 -/

/-- Claim C3 as stated is false of the code: with the non-empty input
`"hi"` and an oracle reply whose text is the well-formed JSON literal
`null`, `call_gemini_for_text` returns Python `None` — a degenerate reply
is converted into the "no input" result. -/
theorem C3_counterexample :
    ¬ (∀ (text : String) (oracle : Oracle),
        (call_gemini_for_text text oracle).1 = .ok .jnull ↔
          (text = "" ∨ pyStrip text = "")) := by
  intro h
  have hn := (h "hi" oracleNull).mp rfl
  exact absurd hn (by decide)

/-- C3 amended: each operation returns `None` exactly when the input is
empty/blank or the oracle's reply decodes to JSON `null`; failures and
undecodable replies still propagate as errors, never as `None`. -/
theorem C3_amended_null_only_for_empty_or_null_json (oracle : Oracle)
    (text mime_type : String) (bytes : List Nat) :
    ((call_gemini_for_text text oracle).1 = .ok .jnull ↔
      (text = "" ∨ pyStrip text = "") ∨ oracleRepliedNull oracle (text_request text)) ∧
    ((call_gemini_for_image bytes mime_type oracle).1 = .ok .jnull ↔
      bytes = [] ∨ oracleRepliedNull oracle (image_request bytes mime_type)) ∧
    ((call_gemini_for_audio bytes mime_type oracle).1 = .ok .jnull ↔
      bytes = [] ∨ oracleRepliedNull oracle (audio_request bytes mime_type)) := by
  refine ⟨?_, ?_, ?_⟩
  · by_cases hb : text = "" ∨ pyStrip text = ""
    · refine iff_of_true ?_ (Or.inl hb)
      unfold call_gemini_for_text
      rw [if_pos hb]
    · have : (call_gemini_for_text text oracle).1 =
          generate_then_loads oracle (text_request text) := by
        unfold call_gemini_for_text
        rw [if_neg hb]
      rw [this]
      exact (generate_then_loads_ok_iff oracle (text_request text) .jnull).trans
        (or_iff_right hb).symm
  · by_cases hb : bytes = []
    · refine iff_of_true ?_ (Or.inl hb)
      unfold call_gemini_for_image
      rw [if_pos hb]
    · have : (call_gemini_for_image bytes mime_type oracle).1 =
          generate_then_loads oracle (image_request bytes mime_type) := by
        unfold call_gemini_for_image
        rw [if_neg hb]
      rw [this]
      exact (generate_then_loads_ok_iff oracle (image_request bytes mime_type) .jnull).trans
        (or_iff_right hb).symm
  · by_cases hb : bytes = []
    · refine iff_of_true ?_ (Or.inl hb)
      unfold call_gemini_for_audio
      rw [if_pos hb]
    · have : (call_gemini_for_audio bytes mime_type oracle).1 =
          generate_then_loads oracle (audio_request bytes mime_type) := by
        unfold call_gemini_for_audio
        rw [if_neg hb]
      rw [this]
      exact (generate_then_loads_ok_iff oracle (audio_request bytes mime_type) .jnull).trans
        (or_iff_right hb).symm

/-! ## C7 and C9: the audio tab's size-keyed cache -/

/-- With non-empty bytes and a decodable reply, the audio call succeeds. -/
theorem call_audio_ok (oracle : Oracle) (audio : List Nat) (mime_type body : String)
    (v : JValue) (hb : audio ≠ [])
    (ho : oracle (audio_request audio mime_type) = .success body)
    (hj : json_loads body = some v) :
    call_gemini_for_audio audio mime_type oracle = (.ok v, 1) := by
  unfold call_gemini_for_audio
  rw [if_neg hb]
  unfold generate_then_loads
  simp only [ho, hj]

/-- Handling a first recording from the initial session state: one oracle
call, and both cache slots are filled. -/
theorem first_audio_submission (oracle : Oracle) (audio : List Nat)
    (mime_type body : String) (v : JValue) (hb : audio ≠ [])
    (ho : oracle (audio_request audio mime_type) = .success body)
    (hj : json_loads body = some v) :
    tab_audio_step oracle audio mime_type initial_session =
      ({ last_audio_size := some audio.length, last_audio_result := some v },
       { oracle_calls := 1, error_shown := false,
         rendered := if pyTruthy v then some v else none }) := by
  have hguard : initial_session.last_audio_size ≠ some audio.length := by
    simp [initial_session]
  simp only [tab_audio_step]
  rw [if_pos hguard, call_audio_ok oracle audio mime_type body v hb ho hj]
  simp [renderedOf]

/-- C7: submitting the same audio byte sequence twice in one session issues
exactly one oracle call, and the second pass renders the cached result. -/
theorem C7_resubmitted_audio_uses_cache (oracle : Oracle) (audio : List Nat)
    (mime_type body : String) (v : JValue) (hb : audio ≠ [])
    (ho : oracle (audio_request audio mime_type) = .success body)
    (hj : json_loads body = some v) (hv : pyTruthy v = true) :
    (tab_audio_step oracle audio mime_type initial_session).2.oracle_calls = 1 ∧
    (tab_audio_step oracle audio mime_type
      (tab_audio_step oracle audio mime_type initial_session).1).2.oracle_calls = 0 ∧
    (tab_audio_step oracle audio mime_type
      (tab_audio_step oracle audio mime_type initial_session).1).2.rendered = some v := by
  rw [first_audio_submission oracle audio mime_type body v hb ho hj]
  have h2 : tab_audio_step oracle audio mime_type
      { last_audio_size := some audio.length, last_audio_result := some v } =
      ({ last_audio_size := some audio.length, last_audio_result := some v },
       { oracle_calls := 0, error_shown := false,
         rendered := if pyTruthy v then some v else none }) := by
    simp only [tab_audio_step]
    rw [if_neg (by simp)]
    simp [renderedOf]
  refine ⟨rfl, ?_, ?_⟩
  · rw [h2]
  · rw [h2]
    simp [hv]

/-- Witness for `C7_resubmitted_audio_uses_cache` on the one-byte recording
`[1]` and an oracle replying with `bodyLow`. -/
theorem C7_witness :
    ([1] ≠ ([] : List Nat)) ∧
    ((tab_audio_step oracleLow [1] "audio/wav" initial_session).2.oracle_calls = 1 ∧
     (tab_audio_step oracleLow [1] "audio/wav"
       (tab_audio_step oracleLow [1] "audio/wav" initial_session).1).2.oracle_calls = 0 ∧
     (tab_audio_step oracleLow [1] "audio/wav"
       (tab_audio_step oracleLow [1] "audio/wav" initial_session).1).2.rendered =
         some valueLow) :=
  ⟨by decide, C7_resubmitted_audio_uses_cache oracleLow [1] "audio/wav" bodyLow valueLow
    (by decide) rfl rfl rfl⟩

/-- C9: the cache key is only the byte LENGTH: a second, different recording
of the same length is never analysed, and the first recording's cached
assessment is rendered for it. -/
theorem C9_cache_keyed_on_length_only (oracle : Oracle) (b1 b2 : List Nat)
    (mime_type body : String) (v : JValue)
    (_hne : b1 ≠ b2) (hlen : b1.length = b2.length) (hb : b1 ≠ [])
    (ho : oracle (audio_request b1 mime_type) = .success body)
    (hj : json_loads body = some v) (hv : pyTruthy v = true) :
    (tab_audio_step oracle b2 mime_type
      (tab_audio_step oracle b1 mime_type initial_session).1).2.oracle_calls = 0 ∧
    (tab_audio_step oracle b2 mime_type
      (tab_audio_step oracle b1 mime_type initial_session).1).2.rendered = some v := by
  rw [first_audio_submission oracle b1 mime_type body v hb ho hj]
  have h2 : tab_audio_step oracle b2 mime_type
      { last_audio_size := some b1.length, last_audio_result := some v } =
      ({ last_audio_size := some b1.length, last_audio_result := some v },
       { oracle_calls := 0, error_shown := false,
         rendered := if pyTruthy v then some v else none }) := by
    simp only [tab_audio_step]
    rw [if_neg (by simp [hlen])]
    simp [renderedOf]
  rw [h2]
  simp [hv]

/-- Witness for `C9_cache_keyed_on_length_only`: the distinct equal-length
recordings `[0]` and `[1]`. -/
theorem C9_witness :
    (([0] : List Nat) ≠ [1] ∧ ([0] : List Nat).length = ([1] : List Nat).length) ∧
    ((tab_audio_step oracleLow [1] "audio/wav"
       (tab_audio_step oracleLow [0] "audio/wav" initial_session).1).2.oracle_calls = 0 ∧
     (tab_audio_step oracleLow [1] "audio/wav"
       (tab_audio_step oracleLow [0] "audio/wav" initial_session).1).2.rendered =
         some valueLow) :=
  ⟨⟨by decide, rfl⟩, C9_cache_keyed_on_length_only oracleLow [0] [1] "audio/wav" bodyLow
    valueLow (by decide) rfl (by decide) rfl rfl rfl⟩

/-! ## C10 -/

/-- The `risk_score` field, when present, survives `int(round(...))`
(numbers and bools do; anything else raises `TypeError`). -/
def scoreFieldOK (fields : List (String × JValue)) : Bool :=
  match jFind fields "risk_score" with
  | none => true
  | some (.jnum _ _) => true
  | some (.jbool _) => true
  | some _ => false

/-- Whether a value is a Python `str`. -/
def isStr : JValue → Bool
  | .jstr _ => true
  | _ => false

/-- The `risk_level` field, when present, is falsy or a string (a truthy
non-string would make `.lower()` raise `AttributeError`). -/
def levelFieldOK (fields : List (String × JValue)) : Bool :=
  match jFind fields "risk_level" with
  | none => true
  | some v => !pyTruthy v || isStr v

/-- A list-section field, when present, is falsy or iterable. -/
def iterFieldOK (fields : List (String × JValue)) (key : String) : Bool :=
  match jFind fields key with
  | none => true
  | some v => !pyTruthy v || (pyIter v).isSome

/-- Claim C10's totality assertion is false of the code: on the non-empty
dict whose `risk_score` is the string `"severe"`, `render_risk_box` raises
`TypeError` in `int(round(...))` instead of rendering. -/
theorem C10_counterexample :
    ¬ (∀ fields : List (String × JValue), fields ≠ [] →
        ∃ r, render_risk_box (.jobj fields) = some r) := by
  intro h
  obtain ⟨r, hr⟩ := h [("risk_score", .jstr "severe")] (List.cons_ne_nil _ _)
  rw [show render_risk_box (.jobj [("risk_score", .jstr "severe")]) = none from rfl] at hr
  exact Option.noConfusion hr

/-- On a non-empty dict, `render_risk_box` runs `render_body`. -/
theorem render_risk_box_jobj (fields : List (String × JValue)) (h0 : fields ≠ []) :
    render_risk_box (.jobj fields) = render_body fields := by
  have hT : pyTruthy (JValue.jobj fields) = true := by
    cases fields with
    | nil => exact absurd rfl h0
    | cons a l => rfl
  unfold render_risk_box
  rw [hT, if_neg (by simp)]

/-- The rounding step succeeds exactly on the `scoreFieldOK` domain, and an
absent `risk_score` rounds the default 0 to 0. -/
theorem pyRoundJ_of_scoreOK (fields : List (String × JValue))
    (h : scoreFieldOK fields = true) :
    ∃ n, pyRoundJ (jGet fields "risk_score" (.jnum 0 0)) = some n ∧
      (jFind fields "risk_score" = none → n = 0) := by
  unfold scoreFieldOK at h
  cases hf : jFind fields "risk_score" with
  | none =>
    simp only [jGet, hf]
    exact ⟨0, rfl, fun _ => rfl⟩
  | some v =>
    rw [hf] at h
    simp only [jGet, hf]
    cases v with
    | jnum m d => exact ⟨pyRound m d, rfl, fun hn => Option.noConfusion hn⟩
    | jbool b => exact ⟨if b then 1 else 0, rfl, fun hn => Option.noConfusion hn⟩
    | jnull => exact Bool.noConfusion h
    | jstr s => exact Bool.noConfusion h
    | jarr items => exact Bool.noConfusion h
    | jobj fs => exact Bool.noConfusion h

/-- The `.lower()` step succeeds on the `levelFieldOK` domain, defaulting an
absent or falsy level to the string `"low"`. -/
theorem strOf_level_of_levelOK (fields : List (String × JValue))
    (h : levelFieldOK fields = true) :
    ∃ lv, strOf (if pyTruthy (jGet fields "risk_level" .jnull) then
        jGet fields "risk_level" .jnull else .jstr "low") = some lv ∧
      (pyTruthy (jGet fields "risk_level" .jnull) = false → lv = "low") := by
  unfold levelFieldOK at h
  cases hf : jFind fields "risk_level" with
  | none =>
    simp only [jGet, hf]
    exact ⟨"low", rfl, fun _ => rfl⟩
  | some v =>
    rw [hf] at h
    have h2 : (!pyTruthy v || isStr v) = true := h
    simp only [jGet, hf]
    by_cases ht : pyTruthy v = true
    · rw [ht] at h2
      simp only [Bool.not_true, Bool.false_or] at h2
      cases v with
      | jstr s =>
        refine ⟨s, ?_, fun hfalse => ?_⟩
        · rw [if_pos ht]
          rfl
        · rw [ht] at hfalse
          exact Bool.noConfusion hfalse
      | jnull => exact Bool.noConfusion h2
      | jbool b => exact Bool.noConfusion h2
      | jnum m d => exact Bool.noConfusion h2
      | jarr items => exact Bool.noConfusion h2
      | jobj fs => exact Bool.noConfusion h2
    · refine ⟨"low", ?_, fun _ => rfl⟩
      rw [if_neg ht]
      rfl

/-- Each guarded list section iterates successfully on the `iterFieldOK`
domain. -/
theorem shownItems_of_iterOK (fields : List (String × JValue)) (key : String)
    (h : iterFieldOK fields key = true) :
    ∃ items, shownItems (orEmptyList (jGet fields key .jnull)) = some items := by
  unfold iterFieldOK at h
  cases hf : jFind fields key with
  | none =>
    simp only [jGet, hf]
    exact ⟨[], rfl⟩
  | some v =>
    rw [hf] at h
    have h2 : (!pyTruthy v || (pyIter v).isSome) = true := h
    simp only [jGet, hf]
    by_cases ht : pyTruthy v = true
    · rw [ht] at h2
      simp only [Bool.not_true, Bool.false_or] at h2
      obtain ⟨items, hi⟩ := Option.isSome_iff_exists.mp h2
      refine ⟨items, ?_⟩
      have ho : orEmptyList v = v := by
        unfold orEmptyList
        rw [if_pos ht]
      rw [ho]
      unfold shownItems
      rw [if_pos ht, hi]
    · have ho : orEmptyList v = JValue.jarr [] := by
        unfold orEmptyList
        rw [if_neg ht]
      rw [ho]
      exact ⟨[], rfl⟩

/-- C10 amended: `render_risk_box` is total on non-empty dicts whose
`risk_score` (if present) is numeric or boolean, whose `risk_level` (if
present) is falsy or a string, and whose three list sections (if present)
are falsy or iterable; there, a missing `risk_score` renders as 0 and a
missing or falsy `risk_level` renders as the low level. -/
theorem C10_amended_defaults_on_benign_dicts (fields : List (String × JValue))
    (h0 : fields ≠ [])
    (h1 : scoreFieldOK fields = true)
    (h2 : levelFieldOK fields = true)
    (h3 : iterFieldOK fields "categories" = true)
    (h4 : iterFieldOK fields "explanations" = true)
    (h5 : iterFieldOK fields "suggested_rewrites" = true) :
    ∃ b, render_risk_box (.jobj fields) = some (.box b) ∧
      (jFind fields "risk_score" = none → b.risk_score = 0) ∧
      (pyTruthy (jGet fields "risk_level" .jnull) = false →
        b.risk_level = "low" ∧ b.level_display = "ðŸŸ¢ Low") := by
  obtain ⟨n, hn, hn0⟩ := pyRoundJ_of_scoreOK fields h1
  obtain ⟨lv, hlv, hlv0⟩ := strOf_level_of_levelOK fields h2
  obtain ⟨cats, hcats⟩ := shownItems_of_iterOK fields "categories" h3
  obtain ⟨exps, hexps⟩ := shownItems_of_iterOK fields "explanations" h4
  obtain ⟨rws, hrws⟩ := shownItems_of_iterOK fields "suggested_rewrites" h5
  refine ⟨{ risk_score := n
            progress := min (max n 0) 100
            risk_level := pyLower lv
            level_display := level_display_map (pyLower lv)
            categories := orEmptyList (jGet fields "categories" .jnull)
            categories_shown :=
              if pyTruthy (orEmptyList (jGet fields "categories" .jnull)) then
                some (String.intercalate ", " (cats.map pyStr))
              else none
            explanations := orEmptyList (jGet fields "explanations" .jnull)
            explanation_lines := exps.map (fun e => "- " ++ pyStr e)
            suggested_rewrites := orEmptyList (jGet fields "suggested_rewrites" .jnull)
            rewrite_lines := rws.mapIdx
              (fun i alt => "*Option " ++ toString (i + 1) ++ ":* " ++ pyStr alt) },
         ?_, fun hnone => hn0 hnone, fun hfalse => ?_⟩
  · rw [render_risk_box_jobj fields h0]
    unfold render_body
    simp only [Option.bind_eq_bind, hn, Option.some_bind, hlv, hcats, hexps, hrws]
  · have hl := hlv0 hfalse
    subst hl
    exact ⟨rfl, rfl⟩

/-- Witness for `C10_amended_defaults_on_benign_dicts` on a dict holding
only `suggested_rewrites`. -/
theorem C10_witness :
    (([("suggested_rewrites", JValue.jarr [.jstr "please reconsider"])] ≠
        ([] : List (String × JValue))) ∧
     scoreFieldOK [("suggested_rewrites", JValue.jarr [.jstr "please reconsider"])] = true ∧
     levelFieldOK [("suggested_rewrites", JValue.jarr [.jstr "please reconsider"])] = true) ∧
    (∃ b, render_risk_box
        (.jobj [("suggested_rewrites", JValue.jarr [.jstr "please reconsider"])]) =
        some (.box b) ∧
      (jFind [("suggested_rewrites", JValue.jarr [.jstr "please reconsider"])]
          "risk_score" = none → b.risk_score = 0) ∧
      (pyTruthy (jGet [("suggested_rewrites", JValue.jarr [.jstr "please reconsider"])]
          "risk_level" .jnull) = false →
        b.risk_level = "low" ∧ b.level_display = "ðŸŸ¢ Low")) :=
  ⟨⟨List.cons_ne_nil _ _, rfl, rfl⟩,
   C10_amended_defaults_on_benign_dicts _ (List.cons_ne_nil _ _) rfl rfl rfl rfl rfl⟩
